import Mathlib

/-!
Verification of the EatEasyFoodOrder voice-ordering frontend
(`frontend/src/app/page.tsx`) and of the transcript-to-menu-item matching
pipeline described by the repository documentation.

The client controller of `page.tsx` is shallowly embedded as a record of the
React state and refs it owns (`Ctrl`), with each handler translated to a pure
function on that record.  Asynchronous handlers (`processTranscript`,
`submitOrder`, …) are split at their unique `await` point into a synchronous
entry function and a resume function taking the network outcome as data, which
mirrors JavaScript's single-threaded run-to-completion semantics: everything
between two suspension points executes atomically.

JavaScript numbers holding prices are embedded as rationals, JavaScript
strings as Lean `String`, and the string operations used by the code
(`String.prototype.includes`, `String.prototype.trim`) are given explicit
executable models below.
-/

namespace EatEasy

/-- Model of `needle.isPrefixOf hay` on character lists: does `hay` start
with `needle`? -/
def startsList : List Char → List Char → Bool
  | [], _ => true
  | _ :: _, [] => false
  | a :: as, b :: bs => a == b && startsList as bs

/-- Model of substring containment on character lists: does `needle` occur
contiguously inside `hay`?  (Empty needles occur everywhere, matching
JavaScript's `"x".includes("")`.) -/
def subList (needle : List Char) : List Char → Bool
  | [] => needle.isEmpty
  | c :: t => startsList needle (c :: t) || subList needle t

/-- Model of JavaScript `hay.includes(needle)` (and of Python
`needle in hay`): contiguous substring containment. -/
def strIncludes (hay needle : String) : Bool :=
  subList needle.data hay.data

/-- Trimming on character lists: drop leading and trailing whitespace. -/
def trimList (xs : List Char) : List Char :=
  ((xs.dropWhile Char.isWhitespace).reverse.dropWhile Char.isWhitespace).reverse

/-- Model of JavaScript `s.trim()`. -/
def jsTrim (s : String) : String :=
  String.mk (trimList s.data)

/-- The head of `dropWhile p xs`, when it exists, fails `p`. -/
theorem dropWhile_head_false {p : Char → Bool} :
    ∀ {xs a : _} {l : List Char}, List.dropWhile p xs = a :: l → p a = false := by
  intro xs
  induction xs with
  | nil => intro a l h; simp [List.dropWhile] at h
  | cons x t ih =>
    intro a l h
    by_cases hp : p x
    · rw [List.dropWhile_cons_of_pos hp] at h
      exact ih h
    · rw [List.dropWhile_cons_of_neg hp] at h
      cases h
      simpa using hp

/-- A nonempty trimmed list is never all-whitespace. -/
theorem trimList_not_all_whitespace {xs : List Char} (h : trimList xs ≠ []) :
    (trimList xs).all Char.isWhitespace = false := by
  unfold trimList at h ⊢
  cases hcase : (xs.dropWhile Char.isWhitespace).reverse.dropWhile Char.isWhitespace with
  | nil => rw [hcase] at h; simp at h
  | cons a l =>
    have ha : Char.isWhitespace a = false := dropWhile_head_false hcase
    rw [List.all_reverse]
    simp [List.all_cons, ha]

/-! ### Data model (from `page.tsx` interfaces) -/

/-- `interface AddOn` of `page.tsx`. -/
structure AddOn where
  name : String
  price : ℚ
  selected : Bool
deriving DecidableEq, Repr

/-- `dineOption` values of `page.tsx`. -/
inductive DineOption where
  | dineIn
  | takeaway
deriving DecidableEq, Repr

/-- `interface OrderItem` (one cart line) of `page.tsx`. -/
structure OrderItem where
  menu_name : String
  quantity : Nat
  note : Option String
  price : Option ℚ
  add_ons : List AddOn
  dineOption : Option DineOption := none
deriving DecidableEq, Repr

/-- `interface OrderResponse` of `page.tsx` (body of
`POST /process-text-order`). -/
structure OrderResponse where
  success : Bool
  items : List OrderItem
  total_price : ℚ := 0
  error : Option String := none
  suggestions : Option (List String) := none
deriving DecidableEq, Repr

/-- `type AppState` of `page.tsx`. -/
inductive AppState where
  | idle
  | recording
  | processing
  | review
  | confirmed
  | error
deriving DecidableEq, Repr

/-! ### MatchEngine (backend)

The backend `backend/main.py` is not part of the provided sources; only its
documentation (the keyword-matching snippet of the tech-stack document) and
the specification describe it.  The definitions below are therefore modelled
from the spec. -/

/-- A menu item as held by the backend `MENU_CACHE`. -/
structure MenuItem where
  name : String
  keywords : List String
  basePrice : ℚ
  isActive : Bool
deriving DecidableEq, Repr

/-- `MatchResult` of the MatchEngine contract (spec §4.2). -/
inductive MatchResult where
  | soldOut (itemName : String)
  | matched (item : MenuItem) (score : Nat)
  | noMatch (suggestions : List String)
deriving DecidableEq, Repr

/-- Modelled from the spec: the documented scoring loop of the missing
`backend/main.py` (`for keyword in item["keywords"]: if keyword in
transcript: score += len(keyword)`): each keyword occurring as a substring
of the transcript contributes its character length once. -/
def itemScore (transcript : String) (it : MenuItem) : Nat :=
  (it.keywords.map (fun k => if strIncludes transcript k then k.length else 0)).sum

/-- Modelled from the spec: `check_sold_out` of the missing
`backend/main.py` — the first inactive item one of whose keywords occurs in
the transcript, if any (sold-out takes priority over any active match). -/
def checkSoldOut (menu : List MenuItem) (transcript : String) : Option MenuItem :=
  menu.find? (fun it => !it.isActive && it.keywords.any (fun k => strIncludes transcript k))

/-- Modelled from the spec: selection of the best active item of the missing
`backend/main.py` — scan active items, keeping the item with the strictly
highest score; the running best starts at score 0, so an item is only ever
selected with a positive score, and the first item attaining the maximal
score wins ties. -/
def bestActive (menu : List MenuItem) (transcript : String) :
    Option MenuItem × Nat :=
  (menu.filter (·.isActive)).foldl
    (fun best it =>
      let sc := itemScore transcript it
      if sc > best.2 then (some it, sc) else best)
    (none, 0)

/-- Modelled from the spec: suggestion strings returned on `NoMatch` — up to
three item names (the spec's ranking of suggestions is irrelevant to the
claims settled here). -/
def suggestFor (menu : List MenuItem) : List String :=
  (menu.map (·.name)).take 3

/-- Modelled from the spec: `MatchEngine.match` of the missing
`backend/main.py` (spec §4.2) — sold-out short circuit, else best-scoring
active item, else `NoMatch` with suggestions when the maximal score is 0. -/
def matchEngine (menu : List MenuItem) (transcript : String) : MatchResult :=
  match checkSoldOut menu transcript with
  | some it => .soldOut it.name
  | none =>
    match bestActive menu transcript with
    | (some it, sc) => .matched it sc
    | (none, _) => .noMatch (suggestFor menu)

/-! ### MatchEngine lemmas -/

/-- An item none of whose keywords occurs in the transcript scores 0. -/
theorem itemScore_eq_zero {t : String} {it : MenuItem}
    (h : ∀ k ∈ it.keywords, strIncludes t k = false) :
    itemScore t it = 0 := by
  unfold itemScore
  apply List.sum_eq_zero
  intro x hx
  rcases List.mem_map.mp hx with ⟨k, hk, rfl⟩
  simp [h k hk]

/-- The best-item fold never leaves a selected item whose score dominates
every remaining element. -/
theorem bestActive_fold_stay {t : String} {it : MenuItem} :
    ∀ (l : List MenuItem), (∀ x ∈ l, x = it ∨ itemScore t x = 0) →
    l.foldl
      (fun best x =>
        let sc := itemScore t x
        if sc > best.2 then (some x, sc) else best)
      (some it, itemScore t it) = (some it, itemScore t it) := by
  intro l
  induction l with
  | nil => intro _; rfl
  | cons x rest ih =>
    intro h
    have hx := h x (List.mem_cons_self x rest)
    have hrest : ∀ y ∈ rest, y = it ∨ itemScore t y = 0 :=
      fun y hy => h y (List.mem_cons_of_mem x hy)
    rcases hx with rfl | hz
    · simp only [List.foldl_cons]
      rw [if_neg (by omega)]
      exact ih hrest
    · simp only [List.foldl_cons, hz]
      rw [if_neg (by omega)]
      exact ih hrest

/-- The best-item fold starting empty selects the unique positively-scoring
item of the list. -/
theorem bestActive_fold_reach {t : String} {it : MenuItem}
    (hpos : 0 < itemScore t it) :
    ∀ (l : List MenuItem), it ∈ l → (∀ x ∈ l, x = it ∨ itemScore t x = 0) →
    l.foldl
      (fun best x =>
        let sc := itemScore t x
        if sc > best.2 then (some x, sc) else best)
      (none, 0) = (some it, itemScore t it) := by
  intro l
  induction l with
  | nil => intro hmem; exact absurd hmem (List.not_mem_nil it)
  | cons x rest ih =>
    intro hmem h
    have hrest : ∀ y ∈ rest, y = it ∨ itemScore t y = 0 :=
      fun y hy => h y (List.mem_cons_of_mem x hy)
    rcases h x (List.mem_cons_self x rest) with rfl | hz
    · simp only [List.foldl_cons]
      rw [if_pos (by omega)]
      exact bestActive_fold_stay rest hrest
    · simp only [List.foldl_cons, hz]
      rw [if_neg (by omega)]
      rcases List.mem_cons.mp hmem with rfl | hm
      · omega
      · exact ih hm hrest

/-! ### The client controller state (`page.tsx`)

One record holding the React `useState` values and `useRef` cells of
`VoiceOrderPage`.  `noteModeRef` is kept in sync with the `noteMode` state by
a `useEffect`, so a single `noteMode` field stands for both.  The fields
`resolutionCalls`, `netCalls`, `pendingReq`, `netConfirms`, `confirmPending`,
`revertPending`, `keywordFires` and `silenceFires` are observation counters /
pending-effect markers recording the externally visible actions (entering the
body of `processTranscript`, dispatching a fetch, scheduling the
confirmation-display revert, an auto-stop trigger firing); they are written
exactly where the source performs the corresponding action. -/

structure Ctrl where
  appState : AppState
  orderData : Option OrderResponse
  cart : List OrderItem
  errorMessage : String
  confirmationMessage : String
  liveTranscript : String
  recordingTime : Nat
  noteMode : Int
  suggestions : List String
  showOrderTypeModal : Bool
  expandedIndex : Int
  transcriptRef : String
  isProcessingRef : Bool
  isProcessingTranscript : Bool
  isSubmitting : Bool
  hasAutoStopped : Bool
  silencePending : Bool
  timerActive : Bool
  recognitionActive : Bool
  secureOrigin : Bool
  resolutionCalls : Nat
  netCalls : Nat
  pendingReq : Option String
  netConfirms : Nat
  confirmPending : Bool
  revertPending : Bool
  keywordFires : Nat
  silenceFires : Nat
deriving DecidableEq, Repr

/-- A fresh controller state (initial `useState` / `useRef` values of
`VoiceOrderPage`, on a secure origin). -/
def initCtrl : Ctrl where
  appState := .idle
  orderData := none
  cart := []
  errorMessage := ""
  confirmationMessage := ""
  liveTranscript := ""
  recordingTime := 0
  noteMode := -1
  suggestions := []
  showOrderTypeModal := false
  expandedIndex := -1
  transcriptRef := ""
  isProcessingRef := false
  isProcessingTranscript := false
  isSubmitting := false
  hasAutoStopped := false
  silencePending := false
  timerActive := false
  recognitionActive := false
  secureOrigin := true
  resolutionCalls := 0
  netCalls := 0
  pendingReq := none
  netConfirms := 0
  confirmPending := false
  revertPending := false
  keywordFires := 0
  silenceFires := 0

/-- `MENU_KEYWORDS` of `page.tsx`: the cheap keyword list used for
auto-stop detection. -/
def MENU_KEYWORDS : List String :=
  ["กระเพรา", "กะเพรา", "แกงเขียวหวาน", "แกงเผ็ด", "มัสมั่น", "พะแนง",
   "กระเทียม", "คะน้า", "ผัดผักบุ้ง", "ผัดซีอิ๊ว", "ข้าวผัด", "สุกี้",
   "ไข่เจียว", "ไข่ดาว", "หมูทอด", "หมูกรอบ", "มันไก่", "ขาหมู", "หมูแดง", "คากิ",
   "ราดหน้า", "ต้มยำ", "แกงจืด", "ต้มจืด", "พริกเผา"]

/-- `detectMenuItem` of `page.tsx`: does the text contain any menu keyword? -/
def detectMenuItem (text : String) : Bool :=
  MENU_KEYWORDS.any (fun keyword => strIncludes text keyword)

/-- The "unheard" input-error message of `processTranscript`. -/
def unheardMsg : String := "ไม่ได้ยินเสียง กรุณาลองพูดอีกครั้ง"

/-- The generic no-match message of `processTranscript`. -/
def noMatchMsg : String := "ไม่พบรายการอาหารในคำสั่ง กรุณาลองใหม่อีกครั้ง"

/-- The generic no-match message of `handleSuggestionClick`. -/
def suggestionNoMatchMsg : String := "ไม่พบรายการ"

/-- The network-failure message of `processTranscript` and
`handleSuggestionClick`. -/
def connectFailMsg : String := "ไม่สามารถเชื่อมต่อกับเซิร์ฟเวอร์ได้"

/-- The note-mode cart update of `processTranscript`: set the note of the
line at the given index if such a line exists (`if (newCart[idx])`),
otherwise leave the cart unchanged. -/
def setNoteAt (cart : List OrderItem) (i : Nat) (t : String) : List OrderItem :=
  match cart.get? i with
  | some item => cart.set i { item with note := some t }
  | none => cart

/-- Synchronous part of `processTranscript` (lines 96–146 of `page.tsx`), up
to its unique suspension point, the `fetch` of `/process-text-order`.  The
guard on `isProcessingTranscriptRef` makes a re-entrant call a no-op; past
the guard the latched transcript is read, trimmed and cleared, and the
empty-transcript and note-mode cases complete synchronously (running the
`finally` that releases the lock), while the order case dispatches the
network request and suspends with the lock held. -/
def processTranscriptSync (s : Ctrl) : Ctrl :=
  if s.isProcessingTranscript then s
  else
    let s := { s with isProcessingTranscript := true,
                      resolutionCalls := s.resolutionCalls + 1 }
    let transcript := jsTrim s.transcriptRef
    let s := { s with transcriptRef := "" }
    if transcript = "" then
      { s with errorMessage := unheardMsg, suggestions := [],
               appState := .error, noteMode := -1,
               isProcessingTranscript := false }
    else if 0 ≤ s.noteMode then
      { s with cart := setNoteAt s.cart s.noteMode.toNat transcript,
               noteMode := -1, appState := .idle, liveTranscript := "",
               isProcessingTranscript := false }
    else
      { s with pendingReq := some transcript, netCalls := s.netCalls + 1 }

/-- Outcome of an awaited `fetch`: a parsed JSON response, or a thrown
network error. -/
inductive NetResult where
  | response (r : OrderResponse)
  | failure
deriving DecidableEq, Repr

/-- Continuation of `processTranscript` after the `fetch` settles (lines
148–188 of `page.tsx`): on `success` with a nonempty item list the first
item is appended to the cart and the new line auto-expanded; otherwise the
error message (`data.error || noMatchMsg`) and suggestions are shown; a
thrown error shows the connection message and exits note mode.  The
`finally` releases the processing lock on every path. -/
def processTranscriptResume (s : Ctrl) (net : NetResult) : Ctrl :=
  let s0 := { s with pendingReq := none }
  let s1 :=
    match net with
    | .response r =>
      match r.success, r.items with
      | true, item :: _ =>
        { s0 with cart := s0.cart ++ [item],
                  expandedIndex := Int.ofNat s0.cart.length,
                  orderData := some r, appState := .idle,
                  liveTranscript := "" }
      | _, _ =>
        { s0 with errorMessage :=
                    (let e := r.error.getD ""
                     if e = "" then noMatchMsg else e),
                  suggestions := r.suggestions.getD [],
                  appState := .error }
    | .failure =>
      { s0 with errorMessage := connectFailMsg, appState := .error,
                noteMode := -1 }
  { s1 with isProcessingTranscript := false }

/-- `stopRecording` of `page.tsx` (lines 236–263), up to the suspension
inside `await processTranscript()`: the `isProcessingRef` guard makes a
re-entrant stop a no-op; past it the phase becomes `processing`, the
recognizer and both timers are halted, and `processTranscript` runs its
synchronous part.  The `finally` that releases `isProcessingRef` runs only
after the awaited promise settles, i.e. strictly after the current
event-loop tick; it is `stopSettle` below. -/
def stopRecording (s : Ctrl) : Ctrl :=
  if s.isProcessingRef then s
  else
    processTranscriptSync
      { s with isProcessingRef := true, appState := .processing,
               recognitionActive := false, timerActive := false,
               silencePending := false }

/-- The `finally` of `stopRecording`: releases `isProcessingRef` once the
awaited `processTranscript` promise has settled. -/
def stopSettle (s : Ctrl) : Ctrl :=
  { s with isProcessingRef := false }

/-- `startRecording` of `page.tsx` (lines 354–386): a no-op while already
recording; rejected with an error on an insecure non-localhost origin;
otherwise clears suggestions, error, live transcript and duration, resets
the auto-stop latch for the new session, starts the duration timer and the
recognizer, and enters the `recording` phase. -/
def startRecording (s : Ctrl) : Ctrl :=
  if s.appState = .recording then s
  else
    let s := { s with suggestions := [], errorMessage := "" }
    if !s.secureOrigin then
      { s with errorMessage := "⚠️ ไมค์ใช้ไม่ได้บน HTTP (ต้องใช้ HTTPS หรือ localhost)",
               appState := .error }
    else
      { s with liveTranscript := "", recordingTime := 0,
               hasAutoStopped := false, timerActive := true,
               recognitionActive := true, appState := .recording }

/-- `recognition.onresult` of `page.tsx` (lines 284–328), for one recognizer
event carrying final portion `finalText` and interim portion `interimText`:
the live transcript and the transcript latch are set to their
concatenation; then, outside note mode, a final fragment containing a menu
keyword takes the auto-stop latch, cancels the pending silence timer and
stops; otherwise the silence timer is reset (re-armed only on nonempty text
while the latch is untaken). -/
def onResult (s : Ctrl) (finalText interimText : String) : Ctrl :=
  let fullTranscript := finalText ++ interimText
  let s := { s with liveTranscript := fullTranscript,
                    transcriptRef := fullTranscript }
  if s.noteMode < 0 ∧ finalText ≠ "" ∧ detectMenuItem finalText = true ∧
      s.hasAutoStopped = false then
    stopRecording
      { s with hasAutoStopped := true, silencePending := false,
               keywordFires := s.keywordFires + 1 }
  else
    let s := { s with silencePending := false }
    if jsTrim fullTranscript ≠ "" ∧ s.hasAutoStopped = false then
      { s with silencePending := true }
    else s

/-- Expiry of the silence timer (the `setTimeout` callback of lines
317–326): only a timer that is still armed fires; the callback double
checks the auto-stop latch (a no-op if menu detection already stopped),
otherwise takes the latch and stops. -/
def silenceTimerFire (s : Ctrl) : Ctrl :=
  if s.silencePending then
    let s := { s with silencePending := false }
    if s.hasAutoStopped then s
    else
      stopRecording
        { s with hasAutoStopped := true,
                 silenceFires := s.silenceFires + 1 }
  else s

/-- Events deliverable to the controller during one recording session. -/
inductive RecEvent where
  | result (finalText interimText : String)
  | timer
deriving Repr

/-- One controller step on a recording-session event. -/
def recStep (s : Ctrl) : RecEvent → Ctrl
  | .result f i => onResult s f i
  | .timer => silenceTimerFire s

/-- Run a list of recording-session events. -/
def recRun (s : Ctrl) (es : List RecEvent) : Ctrl :=
  es.foldl recStep s

/-- Total number of auto-stop trigger firings observed so far. -/
def autoFires (s : Ctrl) : Nat :=
  s.keywordFires + s.silenceFires

/-! ### Cart operations (`page.tsx`) -/

/-- `updateCartItem` of `page.tsx`: replace the line at an index. -/
def updateCartItem (cart : List OrderItem) (index : Nat) (updatedItem : OrderItem) :
    List OrderItem :=
  cart.set index updatedItem

/-- `deleteFromCart` of `page.tsx`: `filter((_, i) => i !== index)`. -/
def deleteFromCart (cart : List OrderItem) (index : Nat) : List OrderItem :=
  cart.eraseIdx index

/-- `getCartTotal` of `page.tsx`:
`cart.reduce((sum, item) => sum + (item.price || 0) * item.quantity, 0)`. -/
def getCartTotal (cart : List OrderItem) : ℚ :=
  cart.foldl (fun sum item => sum + (item.price.getD 0) * item.quantity) 0

/-- Sum of the prices of the selected add-ons:
`add_ons.filter(a => a.selected).reduce((sum, a) => sum + a.price, 0)`. -/
def selectedSum (addons : List AddOn) : ℚ :=
  (addons.filter (·.selected)).foldl (fun sum a => sum + a.price) 0

/-- The add-on toggle `onClick` of `page.tsx` (lines 735–742), acting on one
cart line: flip `selected` of the add-on at `aIdx`, rederive the base price
as current price minus the previously selected add-on prices, and recompute
the line price from scratch as that base plus the now-selected add-on
prices.  (`aIdx` always indexes into `add_ons` in the source, where it is a
`map` index; an out-of-range index is a no-op here.) -/
def toggleAddOn (item : OrderItem) (aIdx : Nat) : OrderItem :=
  match item.add_ons.get? aIdx with
  | none => item
  | some addon =>
    let newAddOns := item.add_ons.set aIdx { addon with selected := !addon.selected }
    let basePrice := (item.price.getD 0) - selectedSum item.add_ons
    let newPrice := basePrice + selectedSum newAddOns
    { item with add_ons := newAddOns, price := some newPrice }

/-- The quantity-stepper `onClick`s of `page.tsx`, acting on one cart line. -/
def setQuantity (item : OrderItem) (n : Nat) : OrderItem :=
  { item with quantity := n }

/-- A user interaction with a single cart line. -/
inductive ItemOp where
  | setQty (n : Nat)
  | toggle (i : Nat)
deriving DecidableEq, Repr

/-- Apply one cart-line interaction. -/
def applyItemOp (item : OrderItem) : ItemOp → OrderItem
  | .setQty n => setQuantity item n
  | .toggle i => toggleAddOn item i

/-- Apply a sequence of cart-line interactions. -/
def applyItemOps (item : OrderItem) (ops : List ItemOp) : OrderItem :=
  ops.foldl applyItemOp item

/-! ### Suggestion taps and order confirmation (`page.tsx`) -/

/-- `handleSuggestionClick` of `page.tsx` (lines 497–523), up to its
`fetch` of `/process-text-order` with the literal suggestion text. -/
def handleSuggestionBegin (s : Ctrl) (text : String) : Ctrl :=
  { s with appState := .processing, suggestions := [], errorMessage := "",
           pendingReq := some text, netCalls := s.netCalls + 1 }

/-- Continuation of `handleSuggestionClick` after its `fetch` settles: on
`success` with a nonempty item list the first item is appended and the phase
returns to `idle`; otherwise (`data.error || suggestionNoMatchMsg`) and the
returned suggestions are shown in the `error` phase; a thrown error shows
the connection message. -/
def handleSuggestionResume (s : Ctrl) (net : NetResult) : Ctrl :=
  let s0 := { s with pendingReq := none }
  match net with
  | .response r =>
    match r.success, r.items with
    | true, item :: _ =>
      { s0 with cart := s0.cart ++ [item], appState := .idle }
    | _, _ =>
      { s0 with errorMessage :=
                  (let e := r.error.getD ""
                   if e = "" then suggestionNoMatchMsg else e),
                suggestions := r.suggestions.getD [],
                appState := .error }
  | .failure =>
    { s0 with errorMessage := connectFailMsg, appState := .error }

/-- The fixed takeaway marker `"ใส่กล่องกลับบ้าน"` of `submitOrder`. -/
def takeawayMarker : String := "ใส่กล่องกลับบ้าน"

/-- The per-line note transform of `submitOrder` (lines 439–447 of
`page.tsx`): in takeaway mode the fixed marker is appended to the line's
note, comma-joined after the trimmed existing note when that is nonempty;
in dine-in mode the note is untouched.  The fulfillment mode is recorded on
the line either way. -/
def applyDineOption (mode : DineOption) (item : OrderItem) : OrderItem :=
  match mode with
  | .takeaway =>
    let existingNote := match item.note with
      | some n => jsTrim n
      | none => ""
    let newNote := if existingNote ≠ "" then existingNote ++ ", " ++ takeawayMarker
                   else takeawayMarker
    { item with note := some newNote, dineOption := some .takeaway }
  | .dineIn => { item with dineOption := some .dineIn }

/-- `itemsToSend` of `submitOrder`: the note transform mapped over the
cart. -/
def itemsToSend (mode : DineOption) (cart : List OrderItem) : List OrderItem :=
  cart.map (applyDineOption mode)

/-- The JSON body dispatched by `submitOrder` to `/confirm-order`. -/
structure SubmitPayload where
  items : List OrderItem
  total_price : ℚ
deriving DecidableEq, Repr

/-- The payload `submitOrder` dispatches: the transformed lines together
with `getCartTotal()` computed over the (untransformed) cart. -/
def submitPayload (mode : DineOption) (cart : List OrderItem) : SubmitPayload :=
  { items := itemsToSend mode cart, total_price := getCartTotal cart }

/-- Response body of `/confirm-order` as consumed by `submitOrder`. -/
structure ConfirmResponse where
  success : Bool
  message : String := ""
deriving DecidableEq, Repr

/-- `confirmOrder` of `page.tsx` (lines 422–428): rejected when the cart is
empty, the phase is `processing`, or a submission is already in flight;
otherwise opens the dine-in/takeaway modal. -/
def confirmOrder (s : Ctrl) : Ctrl :=
  if s.cart.isEmpty ∨ s.appState = .processing ∨ s.isSubmitting then s
  else { s with showOrderTypeModal := true }

/-- `submitOrder` of `page.tsx` (lines 431–482), up to its `fetch` of
`/confirm-order`: the `isSubmittingRef` guard makes a re-entrant call a
no-op dispatching nothing; past it the submission lock is taken, the modal
closes, the phase becomes `processing` and one confirmation call carrying
`submitPayload mode cart` is dispatched (the second component). -/
def submitOrderBegin (s : Ctrl) (mode : DineOption) : Ctrl × Option SubmitPayload :=
  if s.isSubmitting then (s, none)
  else
    ({ s with isSubmitting := true, showOrderTypeModal := false,
              appState := .processing, confirmPending := true,
              netConfirms := s.netConfirms + 1 },
     some (submitPayload mode s.cart))

/-- `resetToIdle` of `page.tsx` (lines 485–495). -/
def resetToIdle (s : Ctrl) : Ctrl :=
  { s with appState := .idle, orderData := none, cart := [],
           errorMessage := "", confirmationMessage := "",
           liveTranscript := "", recordingTime := 0, suggestions := [],
           transcriptRef := "" }

/-- Continuation of `submitOrder` after its `fetch` settles: on `success`
the phase becomes `confirmed` and the 3-second cart-clearing revert is
scheduled, with the submission lock still held; on a non-success response
(`data.message || default`) or a thrown error the lock is released
immediately and the phase becomes `error`. -/
def submitOrderResume (s : Ctrl) (resp : Option ConfirmResponse) : Ctrl :=
  let s0 := { s with confirmPending := false }
  match resp with
  | some r =>
    if r.success then
      { s0 with confirmationMessage := r.message, appState := .confirmed,
                revertPending := true }
    else
      { s0 with errorMessage :=
                  (if r.message = "" then "เกิดข้อผิดพลาดในการบันทึกออเดอร์" else r.message),
                appState := .error, isSubmitting := false }
  | none =>
    { s0 with errorMessage := "ไม่สามารถบันทึกออเดอร์ได้", appState := .error,
              isSubmitting := false }

/-- Expiry of the 3-second confirmation-display timer scheduled by
`submitOrder` on success: runs `resetToIdle` and only then releases the
submission lock. -/
def revertFire (s : Ctrl) : Ctrl :=
  if s.revertPending then
    { resetToIdle s with revertPending := false, isSubmitting := false }
  else s

/-! ### Helper lemmas about the handlers -/

/-- `processTranscript` never touches `isProcessingRef` (the stop lock). -/
@[simp] theorem processTranscriptSync_isProcessingRef (s : Ctrl) :
    (processTranscriptSync s).isProcessingRef = s.isProcessingRef := by
  unfold processTranscriptSync
  split
  · rfl
  · dsimp only
    split
    · rfl
    · split <;> rfl

/-- `processTranscript` never touches the auto-stop latch. -/
@[simp] theorem processTranscriptSync_hasAutoStopped (s : Ctrl) :
    (processTranscriptSync s).hasAutoStopped = s.hasAutoStopped := by
  unfold processTranscriptSync
  split
  · rfl
  · dsimp only
    split
    · rfl
    · split <;> rfl

/-- `processTranscript` never touches the silence timer. -/
@[simp] theorem processTranscriptSync_silencePending (s : Ctrl) :
    (processTranscriptSync s).silencePending = s.silencePending := by
  unfold processTranscriptSync
  split
  · rfl
  · dsimp only
    split
    · rfl
    · split <;> rfl

/-- `processTranscript` never touches the trigger counters. -/
@[simp] theorem processTranscriptSync_keywordFires (s : Ctrl) :
    (processTranscriptSync s).keywordFires = s.keywordFires := by
  unfold processTranscriptSync
  split
  · rfl
  · dsimp only
    split
    · rfl
    · split <;> rfl

/-- `processTranscript` never touches the trigger counters. -/
@[simp] theorem processTranscriptSync_silenceFires (s : Ctrl) :
    (processTranscriptSync s).silenceFires = s.silenceFires := by
  unfold processTranscriptSync
  split
  · rfl
  · dsimp only
    split
    · rfl
    · split <;> rfl

/-- Entering `processTranscript` with the lock free performs exactly one
transcript resolution. -/
theorem processTranscriptSync_resolutionCalls (s : Ctrl)
    (h : s.isProcessingTranscript = false) :
    (processTranscriptSync s).resolutionCalls = s.resolutionCalls + 1 := by
  unfold processTranscriptSync
  rw [if_neg (by simp [h])]
  dsimp only
  split
  · rfl
  · split <;> rfl

/-- `stopRecording` never touches the auto-stop latch or the trigger
counters, and clears the silence timer. -/
theorem stopRecording_frame (s : Ctrl) :
    (stopRecording s).hasAutoStopped = s.hasAutoStopped ∧
    (stopRecording s).keywordFires = s.keywordFires ∧
    (stopRecording s).silenceFires = s.silenceFires ∧
    (s.silencePending = false → (stopRecording s).silencePending = false) := by
  unfold stopRecording
  split
  · simp_all
  · simp

/-- A `stop()` while the stop lock is held is the identity. -/
theorem stopRecording_of_inflight (s : Ctrl) (h : s.isProcessingRef = true) :
    stopRecording s = s := by
  unfold stopRecording
  rw [if_pos h]

/-! ### C1: a second `stop()` in the same tick is a no-op -/

/-- C1: within one recording session, a `stop()` with the stop lock and the
processing lock free performs exactly one transcript resolution, leaves the
stop lock held for the rest of the tick, and a re-entrant `stop()` while
that one is in flight changes nothing at all. -/
theorem C1_stop_reentrancy (s : Ctrl)
    (hstop : s.isProcessingRef = false)
    (hproc : s.isProcessingTranscript = false) :
    (stopRecording s).resolutionCalls = s.resolutionCalls + 1 ∧
    (stopRecording s).isProcessingRef = true ∧
    stopRecording (stopRecording s) = stopRecording s := by
  have h1 : stopRecording s =
      processTranscriptSync
        { s with isProcessingRef := true, appState := .processing,
                 recognitionActive := false, timerActive := false,
                 silencePending := false } := by
    unfold stopRecording
    rw [if_neg (by simp [hstop])]
  have href : (stopRecording s).isProcessingRef = true := by
    rw [h1, processTranscriptSync_isProcessingRef]
  refine ⟨?_, href, ?_⟩
  · rw [h1, processTranscriptSync_resolutionCalls _ (by simpa using hproc)]
  · exact stopRecording_of_inflight _ href

/-- Concrete run of `C1_stop_reentrancy`: stopping a fresh session that
latched the transcript `"ขอกะเพรา"` resolves once and a second stop in the
same tick is the identity. -/
theorem C1_stop_reentrancy_witness :
    (stopRecording { initCtrl with transcriptRef := "ขอกะเพรา" }).resolutionCalls = ({ initCtrl with transcriptRef := "ขอกะเพรา" } : Ctrl).resolutionCalls + 1 ∧
    (stopRecording { initCtrl with transcriptRef := "ขอกะเพรา" }).isProcessingRef = true ∧
    stopRecording (stopRecording { initCtrl with transcriptRef := "ขอกะเพรา" }) = stopRecording { initCtrl with transcriptRef := "ขอกะเพรา" } :=
  C1_stop_reentrancy { initCtrl with transcriptRef := "ขอกะเพรา" } (by decide) (by decide)

/-! ### C4: empty or whitespace-only transcripts -/

/-- C4: when the latched transcript trims to empty, `processTranscript`
reports the "unheard" input error, enters the `error` phase, leaves note
mode, and makes no network call; and every transcript it ever dispatches
over the network is its nonempty trimmed latch — in particular never empty
and never whitespace-only. -/
theorem C4_empty_transcript_input_error (s : Ctrl)
    (hlock : s.isProcessingTranscript = false)
    (hempty : jsTrim s.transcriptRef = "") :
    ((processTranscriptSync s).appState = .error ∧
     (processTranscriptSync s).errorMessage = unheardMsg ∧
     (processTranscriptSync s).suggestions = [] ∧
     (processTranscriptSync s).noteMode = -1 ∧
     (processTranscriptSync s).netCalls = s.netCalls ∧
     (processTranscriptSync s).pendingReq = s.pendingReq ∧
     (processTranscriptSync s).cart = s.cart) ∧
    (∀ u : Ctrl, ∀ t : String, u.pendingReq = none →
      (processTranscriptSync u).pendingReq = some t →
      t = jsTrim u.transcriptRef ∧ t ≠ "" ∧
      t.data.all Char.isWhitespace = false) := by
  constructor
  · unfold processTranscriptSync
    rw [if_neg (by simp [hlock])]
    dsimp only
    rw [if_pos hempty]
    simp
  · intro u t hnone hsome
    unfold processTranscriptSync at hsome
    by_cases hu : u.isProcessingTranscript
    · rw [if_pos (by simp [hu])] at hsome
      rw [hnone] at hsome
      cases hsome
    · rw [if_neg (by simp [hu])] at hsome
      dsimp only at hsome
      by_cases he : jsTrim u.transcriptRef = ""
      · rw [if_pos he] at hsome
        simp [hnone] at hsome
      · rw [if_neg he] at hsome
        by_cases hn : (0 : Int) ≤ u.noteMode
        · rw [if_pos hn] at hsome
          simp [hnone] at hsome
        · rw [if_neg hn] at hsome
          simp at hsome
          subst hsome
          refine ⟨rfl, he, ?_⟩
          have hne : trimList u.transcriptRef.data ≠ [] := by
            intro hc
            apply he
            unfold jsTrim
            rw [hc]
          simpa [jsTrim] using trimList_not_all_whitespace hne

/-- Concrete run of `C4_empty_transcript_input_error` on a whitespace-only
latched transcript. -/
theorem C4_empty_transcript_input_error_witness :
    ((processTranscriptSync { initCtrl with transcriptRef := "   " }).appState = .error ∧
     (processTranscriptSync { initCtrl with transcriptRef := "   " }).errorMessage = unheardMsg ∧
     (processTranscriptSync { initCtrl with transcriptRef := "   " }).suggestions = [] ∧
     (processTranscriptSync { initCtrl with transcriptRef := "   " }).noteMode = -1 ∧
     (processTranscriptSync { initCtrl with transcriptRef := "   " }).netCalls = ({ initCtrl with transcriptRef := "   " } : Ctrl).netCalls ∧
     (processTranscriptSync { initCtrl with transcriptRef := "   " }).pendingReq = ({ initCtrl with transcriptRef := "   " } : Ctrl).pendingReq ∧
     (processTranscriptSync { initCtrl with transcriptRef := "   " }).cart = ({ initCtrl with transcriptRef := "   " } : Ctrl).cart) ∧
    (∀ u : Ctrl, ∀ t : String, u.pendingReq = none →
      (processTranscriptSync u).pendingReq = some t →
      t = jsTrim u.transcriptRef ∧ t ≠ "" ∧
      t.data.all Char.isWhitespace = false) :=
  C4_empty_transcript_input_error { initCtrl with transcriptRef := "   " } (by decide) (by decide)

/-! ### C5: note-mode resolution -/

/-- C5: with a valid note-mode index and a nonempty transcript,
`processTranscript` stores the trimmed transcript as the note of the cart
line at that index, changes no other line and creates none, dispatches no
network call, resets `noteMode` to −1 and returns the phase to `idle`. -/
theorem C5_note_mode_resolution (s : Ctrl) (item : OrderItem)
    (hlock : s.isProcessingTranscript = false)
    (hnm : 0 ≤ s.noteMode)
    (hget : s.cart.get? s.noteMode.toNat = some item)
    (hne : jsTrim s.transcriptRef ≠ "") :
    (processTranscriptSync s).cart =
      s.cart.set s.noteMode.toNat
        { item with note := some (jsTrim s.transcriptRef) } ∧
    (processTranscriptSync s).cart.length = s.cart.length ∧
    (processTranscriptSync s).netCalls = s.netCalls ∧
    (processTranscriptSync s).pendingReq = s.pendingReq ∧
    (processTranscriptSync s).noteMode = -1 ∧
    (processTranscriptSync s).appState = .idle := by
  unfold processTranscriptSync
  rw [if_neg (by simp [hlock])]
  dsimp only
  rw [if_neg hne, if_pos hnm]
  unfold setNoteAt
  rw [hget]
  simp

/-- A single-line sample cart used by concrete runs. -/
def sampleItem : OrderItem :=
  { menu_name := "กะเพราหมูสับ", quantity := 1, note := none, price := some 50,
    add_ons := [] }

/-- Controller state for the concrete note-mode run: note mode targets cart
line 0 and the latch holds `" ไม่เผ็ด "`. -/
def c5Ctrl : Ctrl :=
  { initCtrl with transcriptRef := " ไม่เผ็ด ", noteMode := 0,
                  cart := [sampleItem] }

/-- Concrete run of `C5_note_mode_resolution`: dictating `" ไม่เผ็ด "` in
note mode for cart line 0 stores the trimmed note on that line. -/
theorem C5_note_mode_resolution_witness :
    (processTranscriptSync c5Ctrl).cart =
      c5Ctrl.cart.set c5Ctrl.noteMode.toNat
        { sampleItem with note := some (jsTrim c5Ctrl.transcriptRef) } ∧
    (processTranscriptSync c5Ctrl).cart.length = c5Ctrl.cart.length ∧
    (processTranscriptSync c5Ctrl).netCalls = c5Ctrl.netCalls ∧
    (processTranscriptSync c5Ctrl).pendingReq = c5Ctrl.pendingReq ∧
    (processTranscriptSync c5Ctrl).noteMode = -1 ∧
    (processTranscriptSync c5Ctrl).appState = .idle :=
  C5_note_mode_resolution c5Ctrl sampleItem (by decide) (by decide) (by decide)
    (by decide)

/-! ### C9: failure paths leave the cart untouched -/

/-- C9: on every failure path of transcript resolution — empty transcript,
a non-success or empty-items response, or a thrown network error — the
cart, the order data, the expansion state and the live transcript are all
unchanged. -/
theorem C9_failure_paths_frame (s : Ctrl) (r : OrderResponse)
    (hfail : r.success = false ∨ r.items = []) :
    ((s.isProcessingTranscript = false → jsTrim s.transcriptRef = "" →
      (processTranscriptSync s).cart = s.cart ∧
      (processTranscriptSync s).netCalls = s.netCalls ∧
      (processTranscriptSync s).liveTranscript = s.liveTranscript ∧
      (processTranscriptSync s).orderData = s.orderData ∧
      (processTranscriptSync s).expandedIndex = s.expandedIndex)) ∧
    ((processTranscriptResume s (.response r)).cart = s.cart ∧
     (processTranscriptResume s (.response r)).liveTranscript = s.liveTranscript ∧
     (processTranscriptResume s (.response r)).orderData = s.orderData ∧
     (processTranscriptResume s (.response r)).expandedIndex = s.expandedIndex) ∧
    ((processTranscriptResume s .failure).cart = s.cart ∧
     (processTranscriptResume s .failure).liveTranscript = s.liveTranscript ∧
     (processTranscriptResume s .failure).orderData = s.orderData ∧
     (processTranscriptResume s .failure).expandedIndex = s.expandedIndex) := by
  refine ⟨?_, ?_, ?_⟩
  · intro hlock hempty
    unfold processTranscriptSync
    rw [if_neg (by simp [hlock])]
    dsimp only
    rw [if_pos hempty]
    simp
  · obtain ⟨suc, items, tp, err, sug⟩ := r
    rcases hfail with hf | hf
    · have hsuc : suc = false := hf
      subst hsuc
      cases items <;> simp [processTranscriptResume]
    · have hit : items = [] := hf
      subst hit
      cases suc <;> simp [processTranscriptResume]
  · simp [processTranscriptResume]

/-- Controller state with a one-line cart for the concrete failure runs. -/
def c9Ctrl : Ctrl :=
  { initCtrl with cart := [sampleItem] }

/-- A non-success backend response with a suggestion list. -/
def c9Resp : OrderResponse :=
  { success := false, items := [], error := some "ขออภัย เมนูนี้หมดแล้วครับ",
    suggestions := some ["ต้มยำกุ้ง"] }

/-- Concrete run of `C9_failure_paths_frame`: a `success: false` response
with a suggestion list leaves a one-line cart untouched on every failure
path. -/
theorem C9_failure_paths_frame_witness :
    ((c9Ctrl.isProcessingTranscript = false → jsTrim c9Ctrl.transcriptRef = "" →
      (processTranscriptSync c9Ctrl).cart = c9Ctrl.cart ∧
      (processTranscriptSync c9Ctrl).netCalls = c9Ctrl.netCalls ∧
      (processTranscriptSync c9Ctrl).liveTranscript = c9Ctrl.liveTranscript ∧
      (processTranscriptSync c9Ctrl).orderData = c9Ctrl.orderData ∧
      (processTranscriptSync c9Ctrl).expandedIndex = c9Ctrl.expandedIndex)) ∧
    ((processTranscriptResume c9Ctrl (.response c9Resp)).cart = c9Ctrl.cart ∧
     (processTranscriptResume c9Ctrl (.response c9Resp)).liveTranscript = c9Ctrl.liveTranscript ∧
     (processTranscriptResume c9Ctrl (.response c9Resp)).orderData = c9Ctrl.orderData ∧
     (processTranscriptResume c9Ctrl (.response c9Resp)).expandedIndex = c9Ctrl.expandedIndex) ∧
    ((processTranscriptResume c9Ctrl .failure).cart = c9Ctrl.cart ∧
     (processTranscriptResume c9Ctrl .failure).liveTranscript = c9Ctrl.liveTranscript ∧
     (processTranscriptResume c9Ctrl .failure).orderData = c9Ctrl.orderData ∧
     (processTranscriptResume c9Ctrl .failure).expandedIndex = c9Ctrl.expandedIndex) :=
  C9_failure_paths_frame c9Ctrl c9Resp (Or.inl (by decide))

/-! ### C10: a success response with an empty item list is a failure -/

/-- C10: a `success: true` response carrying no items is handled as a
failure both by voice-driven resolution and by a suggestion tap: the phase
becomes `error`, the generic no-match message of the respective handler is
shown together with any returned suggestions, and no line is appended to
the cart. -/
theorem C10_success_empty_items (s u : Ctrl) (r : OrderResponse)
    (hs : r.success = true) (hi : r.items = []) (he : r.error = none) :
    ((processTranscriptResume s (.response r)).appState = .error ∧
     (processTranscriptResume s (.response r)).errorMessage = noMatchMsg ∧
     (processTranscriptResume s (.response r)).suggestions = r.suggestions.getD [] ∧
     (processTranscriptResume s (.response r)).cart = s.cart) ∧
    ((handleSuggestionResume u (.response r)).appState = .error ∧
     (handleSuggestionResume u (.response r)).errorMessage = suggestionNoMatchMsg ∧
     (handleSuggestionResume u (.response r)).suggestions = r.suggestions.getD [] ∧
     (handleSuggestionResume u (.response r)).cart = u.cart) := by
  obtain ⟨suc, items, tp, err, sug⟩ := r
  have hsuc : suc = true := hs
  have hit : items = [] := hi
  have herr : err = none := he
  subst hsuc
  subst hit
  subst herr
  constructor
  · simp [processTranscriptResume]
  · simp [handleSuggestionResume]

/-- A `success: true` response carrying no items but two suggestions. -/
def c10Resp : OrderResponse :=
  { success := true, items := [], suggestions := some ["ต้มยำ", "กะเพรา"] }

/-- Concrete run of `C10_success_empty_items`: the empty-items success
response produces the error phase with the generic message in both
handlers, cart unchanged. -/
theorem C10_success_empty_items_witness :
    ((processTranscriptResume initCtrl (.response c10Resp)).appState = .error ∧
     (processTranscriptResume initCtrl (.response c10Resp)).errorMessage = noMatchMsg ∧
     (processTranscriptResume initCtrl (.response c10Resp)).suggestions = c10Resp.suggestions.getD [] ∧
     (processTranscriptResume initCtrl (.response c10Resp)).cart = initCtrl.cart) ∧
    ((handleSuggestionResume initCtrl (.response c10Resp)).appState = .error ∧
     (handleSuggestionResume initCtrl (.response c10Resp)).errorMessage = suggestionNoMatchMsg ∧
     (handleSuggestionResume initCtrl (.response c10Resp)).suggestions = c10Resp.suggestions.getD [] ∧
     (handleSuggestionResume initCtrl (.response c10Resp)).cart = initCtrl.cart) :=
  C10_success_empty_items initCtrl initCtrl c10Resp (by decide) (by decide)
    (by decide)

/-! ### C6: add-on toggles recompute the price exactly -/

/-- Writing back the element already at an index leaves a list unchanged. -/
theorem list_set_of_get? {α : Type _} :
    ∀ {l : List α} {i : Nat} {a : α}, l.get? i = some a → l.set i a = l := by
  intro l
  induction l with
  | nil => intro i a h; simp at h
  | cons x t ih =>
    intro i a h
    cases i with
    | zero =>
      simp only [List.get?] at h
      cases h
      rfl
    | succ n =>
      simp only [List.get?] at h
      simp only [List.set]
      rw [ih h]

/-- Price of a toggled line, per the recompute-from-scratch expression of
the source. -/
theorem toggleAddOn_price (item : OrderItem) (a : AddOn) (i : Nat)
    (ha : item.add_ons.get? i = some a) :
    (toggleAddOn item i).price =
      some (item.price.getD 0 - selectedSum item.add_ons +
        selectedSum (item.add_ons.set i { a with selected := !a.selected })) := by
  unfold toggleAddOn
  rw [ha]

/-- Add-on list of a toggled line. -/
theorem toggleAddOn_add_ons (item : OrderItem) (a : AddOn) (i : Nat)
    (ha : item.add_ons.get? i = some a) :
    (toggleAddOn item i).add_ons =
      item.add_ons.set i { a with selected := !a.selected } := by
  unfold toggleAddOn
  rw [ha]

/-- Quantity changes touch neither the price nor the add-on list of a
line. -/
theorem applyItemOps_qty_frame :
    ∀ (ops : List ItemOp) (item : OrderItem),
    (∀ op ∈ ops, ∃ n, op = ItemOp.setQty n) →
    (applyItemOps item ops).price = item.price ∧
    (applyItemOps item ops).add_ons = item.add_ons := by
  intro ops
  induction ops with
  | nil => intro item _; exact ⟨rfl, rfl⟩
  | cons op rest ih =>
    intro item h
    rcases h op (List.mem_cons_self op rest) with ⟨n, rfl⟩
    have hrest : ∀ op ∈ rest, ∃ n, op = ItemOp.setQty n :=
      fun o ho => h o (List.mem_cons_of_mem _ ho)
    have := ih (setQuantity item n) hrest
    simpa [applyItemOps, applyItemOp, setQuantity] using this

/-- C6: toggling the same add-on twice returns a line's (non-null) price
exactly to its prior value, for any sequence of quantity changes
interleaved between the two toggles; and every single toggle keeps the
price equal to the base price plus the sum of the currently selected
add-on prices. -/
theorem C6_addon_toggle_price (item : OrderItem) (a : AddOn) (p : ℚ) (i : Nat)
    (ops : List ItemOp)
    (hp : item.price = some p)
    (ha : item.add_ons.get? i = some a)
    (hops : ∀ op ∈ ops, ∃ n, op = ItemOp.setQty n) :
    (toggleAddOn (applyItemOps (toggleAddOn item i) ops) i).price = some p ∧
    (∀ (it : OrderItem) (b : ℚ) (j : Nat) (c : AddOn),
       it.add_ons.get? j = some c →
       it.price = some (b + selectedSum it.add_ons) →
       (toggleAddOn it j).price =
         some (b + selectedSum (toggleAddOn it j).add_ons)) := by
  constructor
  · have h1p := toggleAddOn_price item a i ha
    have h1a := toggleAddOn_add_ons item a i ha
    obtain ⟨hfp, hfa⟩ := applyItemOps_qty_frame ops (toggleAddOn item i) hops
    have hlen : i < item.add_ons.length := by
      rcases List.get?_eq_some.mp ha with ⟨h, _⟩
      exact h
    have ha2 : (applyItemOps (toggleAddOn item i) ops).add_ons.get? i =
        some { a with selected := !a.selected } := by
      rw [hfa, h1a, List.get?_eq_getElem?]
      exact List.getElem?_set_self (by simpa using hlen)
    have h2p := toggleAddOn_price (applyItemOps (toggleAddOn item i) ops) _ i ha2
    have hflip : ({ { a with selected := !a.selected } with
        selected := !(!a.selected) } : AddOn) = a := by
      cases a
      simp
    rw [h2p, hfa, h1a, hflip, List.set_set, list_set_of_get? ha, hfp, h1p, hp]
    simp only [Option.getD_some]
    ring_nf
  · intro it b j c hc hbp
    have h2p := toggleAddOn_price it c j hc
    have h2a := toggleAddOn_add_ons it c j hc
    rw [h2p, h2a, hbp]
    simp only [Option.getD_some]
    ring_nf

/-- A line whose catalog holds two add-ons, the first selected, priced
`60 = 50 + 10`. -/
def c6Item : OrderItem :=
  { menu_name := "สุกี้", quantity := 1, note := none, price := some 60,
    add_ons := [{ name := "ไข่ดาว", price := 10, selected := true },
                { name := "หมูกรอบ", price := 15, selected := false }] }

/-- Concrete run of `C6_addon_toggle_price`: toggling add-on 1 of `c6Item`,
changing the quantity twice, then toggling add-on 1 back returns the price
exactly to 60. -/
theorem C6_addon_toggle_price_witness :
    (toggleAddOn (applyItemOps (toggleAddOn c6Item 1)
        [ItemOp.setQty 3, ItemOp.setQty 2]) 1).price = some 60 ∧
    (∀ (it : OrderItem) (b : ℚ) (j : Nat) (c : AddOn),
       it.add_ons.get? j = some c →
       it.price = some (b + selectedSum it.add_ons) →
       (toggleAddOn it j).price =
         some (b + selectedSum (toggleAddOn it j).add_ons)) :=
  C6_addon_toggle_price c6Item { name := "หมูกรอบ", price := 15, selected := false }
    60 1 [ItemOp.setQty 3, ItemOp.setQty 2] (by decide) (by decide)
    (by
      intro op hop
      simp only [List.mem_cons, List.not_mem_nil, or_false] at hop
      rcases hop with rfl | rfl
      · exact ⟨3, rfl⟩
      · exact ⟨2, rfl⟩)

/-! ### C8: takeaway note transform and the dispatched total -/

/-- The note transform never changes a line's price. -/
theorem applyDineOption_price (mode : DineOption) (item : OrderItem) :
    (applyDineOption mode item).price = item.price := by
  cases mode <;> rfl

/-- The note transform never changes a line's quantity. -/
theorem applyDineOption_quantity (mode : DineOption) (item : OrderItem) :
    (applyDineOption mode item).quantity = item.quantity := by
  cases mode <;> rfl

/-- Dine-in submission leaves every note untouched. -/
theorem applyDineOption_dineIn_note (item : OrderItem) :
    (applyDineOption .dineIn item).note = item.note := rfl

/-- The cart total is insensitive to the note transform, accumulator
included. -/
theorem foldl_total_map (mode : DineOption) :
    ∀ (cart : List OrderItem) (acc : ℚ),
    ((cart.map (applyDineOption mode)).foldl
      (fun sum item => sum + (item.price.getD 0) * (item.quantity : ℚ)) acc) =
    cart.foldl (fun sum item => sum + (item.price.getD 0) * (item.quantity : ℚ)) acc := by
  intro cart
  induction cart with
  | nil => intro acc; rfl
  | cons x t ih =>
    intro acc
    simp only [List.map_cons, List.foldl_cons]
    rw [applyDineOption_price, applyDineOption_quantity]
    exact ih _

/-- C8: confirming in takeaway mode appends the fixed marker to every
line's note — comma-joined after the trimmed existing note when that is
nonempty — while dine-in leaves every note untouched; the dispatched total
is `getCartTotal`, the sum of `price × quantity` over the cart, and the
note transform does not affect that sum. -/
theorem C8_takeaway_note_and_total (cart : List OrderItem) (mode : DineOption) :
    (∀ item ∈ itemsToSend .takeaway cart, ∃ n : String,
       item.note = some n ∧ takeawayMarker.data <:+ n.data) ∧
    ((itemsToSend .dineIn cart).map (·.note) = cart.map (·.note)) ∧
    (∀ (item : OrderItem) (nt : String), item.note = some nt → jsTrim nt ≠ "" →
       (applyDineOption .takeaway item).note =
         some (jsTrim nt ++ ", " ++ takeawayMarker)) ∧
    (submitPayload mode cart).total_price = getCartTotal cart ∧
    getCartTotal (itemsToSend mode cart) = getCartTotal cart := by
  refine ⟨?_, ?_, ?_, rfl, ?_⟩
  · intro item hmem
    rcases List.mem_map.mp hmem with ⟨orig, _, rfl⟩
    unfold applyDineOption
    dsimp only
    split
    · exact ⟨_, rfl, by rw [String.data_append]; exact List.suffix_append _ _⟩
    · exact ⟨_, rfl, List.suffix_rfl⟩
  · simp [itemsToSend, List.map_map, Function.comp, applyDineOption_dineIn_note]
  · intro item nt hnt hne
    unfold applyDineOption
    dsimp only
    rw [hnt]
    dsimp only
    rw [if_pos hne]
  · exact foldl_total_map mode cart 0

/-- A two-line cart, one line already carrying a note. -/
def c8Cart : List OrderItem :=
  [{ menu_name := "กะเพราหมูสับ", quantity := 2, note := some "ไม่เผ็ด",
     price := some 50, add_ons := [] },
   { menu_name := "ต้มยำ", quantity := 1, note := none, price := some 60,
     add_ons := [] }]

/-- Concrete run of `C8_takeaway_note_and_total` on a two-line cart
confirmed in takeaway mode. -/
theorem C8_takeaway_note_and_total_witness :
    (∀ item ∈ itemsToSend .takeaway c8Cart, ∃ n : String,
       item.note = some n ∧ takeawayMarker.data <:+ n.data) ∧
    ((itemsToSend .dineIn c8Cart).map (·.note) = c8Cart.map (·.note)) ∧
    (∀ (item : OrderItem) (nt : String), item.note = some nt → jsTrim nt ≠ "" →
       (applyDineOption .takeaway item).note =
         some (jsTrim nt ++ ", " ++ takeawayMarker)) ∧
    (submitPayload .takeaway c8Cart).total_price = getCartTotal c8Cart ∧
    getCartTotal (itemsToSend .takeaway c8Cart) = getCartTotal c8Cart :=
  C8_takeaway_note_and_total c8Cart .takeaway

/-! ### C7: the submission guard -/

/-- C7: with the submission lock free, `submitOrder` dispatches exactly one
confirmation call and a second invocation before the first settles is a
no-op dispatching nothing (a `confirmOrder` while the lock is held is
likewise rejected); on success the lock is still held through the
`confirmed` phase and is released (with the cart cleared) only by the
scheduled revert; on a non-success response or a thrown error the lock is
released immediately and the phase becomes `error`. -/
theorem C7_submission_guard (s : Ctrl) (mode mode2 : DineOption)
    (r : ConfirmResponse) (hfree : s.isSubmitting = false) :
    ((submitOrderBegin s mode).2 = some (submitPayload mode s.cart)) ∧
    ((submitOrderBegin s mode).1.netConfirms = s.netConfirms + 1) ∧
    (submitOrderBegin (submitOrderBegin s mode).1 mode2 =
      ((submitOrderBegin s mode).1, none)) ∧
    (confirmOrder (submitOrderBegin s mode).1 = (submitOrderBegin s mode).1) ∧
    (r.success = true →
      (submitOrderResume (submitOrderBegin s mode).1 (some r)).isSubmitting = true ∧
      (submitOrderResume (submitOrderBegin s mode).1 (some r)).appState = .confirmed ∧
      (submitOrderResume (submitOrderBegin s mode).1 (some r)).revertPending = true ∧
      (revertFire (submitOrderResume (submitOrderBegin s mode).1 (some r))).isSubmitting = false ∧
      (revertFire (submitOrderResume (submitOrderBegin s mode).1 (some r))).cart = []) ∧
    (r.success = false →
      (submitOrderResume (submitOrderBegin s mode).1 (some r)).isSubmitting = false ∧
      (submitOrderResume (submitOrderBegin s mode).1 (some r)).appState = .error) ∧
    ((submitOrderResume (submitOrderBegin s mode).1 none).isSubmitting = false ∧
     (submitOrderResume (submitOrderBegin s mode).1 none).appState = .error) := by
  have hbegin : submitOrderBegin s mode =
      ({ s with isSubmitting := true, showOrderTypeModal := false,
                appState := .processing, confirmPending := true,
                netConfirms := s.netConfirms + 1 },
       some (submitPayload mode s.cart)) := by
    unfold submitOrderBegin
    rw [if_neg (by simp [hfree])]
  refine ⟨by rw [hbegin], by rw [hbegin], ?_, ?_, ?_, ?_, ?_⟩
  · rw [hbegin]
    unfold submitOrderBegin
    rw [if_pos rfl]
  · rw [hbegin]
    unfold confirmOrder
    rw [if_pos (Or.inr (Or.inr rfl))]
  · intro hsuc
    obtain ⟨suc, msg⟩ := r
    have h : suc = true := hsuc
    subst h
    rw [hbegin]
    simp [submitOrderResume, revertFire, resetToIdle]
  · intro hsuc
    obtain ⟨suc, msg⟩ := r
    have h : suc = false := hsuc
    subst h
    rw [hbegin]
    simp [submitOrderResume]
  · rw [hbegin]
    simp [submitOrderResume]

/-- Concrete run of `C7_submission_guard`: submitting a one-line cart in
dine-in mode with a success response. -/
theorem C7_submission_guard_witness :
    ((submitOrderBegin c9Ctrl .dineIn).2 = some (submitPayload .dineIn c9Ctrl.cart)) ∧
    ((submitOrderBegin c9Ctrl .dineIn).1.netConfirms = c9Ctrl.netConfirms + 1) ∧
    (submitOrderBegin (submitOrderBegin c9Ctrl .dineIn).1 .takeaway =
      ((submitOrderBegin c9Ctrl .dineIn).1, none)) ∧
    (confirmOrder (submitOrderBegin c9Ctrl .dineIn).1 = (submitOrderBegin c9Ctrl .dineIn).1) ∧
    (({ success := true, message := "บันทึกออเดอร์เรียบร้อยแล้ว" } : ConfirmResponse).success = true →
      (submitOrderResume (submitOrderBegin c9Ctrl .dineIn).1 (some { success := true, message := "บันทึกออเดอร์เรียบร้อยแล้ว" })).isSubmitting = true ∧
      (submitOrderResume (submitOrderBegin c9Ctrl .dineIn).1 (some { success := true, message := "บันทึกออเดอร์เรียบร้อยแล้ว" })).appState = .confirmed ∧
      (submitOrderResume (submitOrderBegin c9Ctrl .dineIn).1 (some { success := true, message := "บันทึกออเดอร์เรียบร้อยแล้ว" })).revertPending = true ∧
      (revertFire (submitOrderResume (submitOrderBegin c9Ctrl .dineIn).1 (some { success := true, message := "บันทึกออเดอร์เรียบร้อยแล้ว" }))).isSubmitting = false ∧
      (revertFire (submitOrderResume (submitOrderBegin c9Ctrl .dineIn).1 (some { success := true, message := "บันทึกออเดอร์เรียบร้อยแล้ว" }))).cart = []) ∧
    (({ success := true, message := "บันทึกออเดอร์เรียบร้อยแล้ว" } : ConfirmResponse).success = false →
      (submitOrderResume (submitOrderBegin c9Ctrl .dineIn).1 (some { success := true, message := "บันทึกออเดอร์เรียบร้อยแล้ว" })).isSubmitting = false ∧
      (submitOrderResume (submitOrderBegin c9Ctrl .dineIn).1 (some { success := true, message := "บันทึกออเดอร์เรียบร้อยแล้ว" })).appState = .error) ∧
    ((submitOrderResume (submitOrderBegin c9Ctrl .dineIn).1 none).isSubmitting = false ∧
     (submitOrderResume (submitOrderBegin c9Ctrl .dineIn).1 none).appState = .error) :=
  C7_submission_guard c9Ctrl .dineIn .takeaway
    { success := true, message := "บันทึกออเดอร์เรียบร้อยแล้ว" } (by decide)

/-! ### C2: the auto-stop latch -/

/-- `stopRecording` never touches the auto-stop latch. -/
@[simp] theorem stopRecording_hasAutoStopped (s : Ctrl) :
    (stopRecording s).hasAutoStopped = s.hasAutoStopped := by
  unfold stopRecording
  split
  · rfl
  · simp

/-- `stopRecording` never touches the keyword-trigger counter. -/
@[simp] theorem stopRecording_keywordFires (s : Ctrl) :
    (stopRecording s).keywordFires = s.keywordFires := by
  unfold stopRecording
  split
  · rfl
  · simp

/-- `stopRecording` never touches the silence-trigger counter. -/
@[simp] theorem stopRecording_silenceFires (s : Ctrl) :
    (stopRecording s).silenceFires = s.silenceFires := by
  unfold stopRecording
  split
  · rfl
  · simp

/-- One recording-session event preserves the latch invariant: while the
latch is untaken no auto-stop has fired this session, and in any case at
most one has. -/
theorem recStep_inv (base : Nat) (s : Ctrl) (e : RecEvent)
    (h0 : s.hasAutoStopped = false → autoFires s = base)
    (h1 : autoFires s ≤ base + 1) :
    ((recStep s e).hasAutoStopped = false → autoFires (recStep s e) = base) ∧
    autoFires (recStep s e) ≤ base + 1 := by
  cases e with
  | result f i =>
    simp only [recStep]
    unfold onResult
    dsimp only
    by_cases hstop : s.hasAutoStopped = true
    · rw [if_neg (by simp [hstop])]
      by_cases harm : jsTrim (f ++ i) ≠ "" ∧ s.hasAutoStopped = false
      · exact absurd harm.2 (by simp [hstop])
      · rw [if_neg harm]
        exact ⟨h0, h1⟩
    · have hs : s.hasAutoStopped = false := by
        cases hcase : s.hasAutoStopped
        · rfl
        · exact absurd hcase hstop
      have hbase := h0 hs
      by_cases hc : s.noteMode < 0 ∧ f ≠ "" ∧ detectMenuItem f = true
      · rw [if_pos ⟨hc.1, hc.2.1, hc.2.2, hs⟩]
        constructor
        · intro hfalse
          rw [stopRecording_hasAutoStopped] at hfalse
          simp at hfalse
        · rw [autoFires, stopRecording_keywordFires, stopRecording_silenceFires]
          simp only [autoFires] at hbase
          simp
          omega
      · rw [if_neg (by
          intro hcontra
          exact hc ⟨hcontra.1, hcontra.2.1, hcontra.2.2.1⟩)]
        by_cases harm : jsTrim (f ++ i) ≠ "" ∧ s.hasAutoStopped = false
        · rw [if_pos harm]
          exact ⟨fun _ => hbase, h1⟩
        · rw [if_neg harm]
          exact ⟨fun _ => hbase, h1⟩
  | timer =>
    simp only [recStep]
    unfold silenceTimerFire
    dsimp only
    by_cases hpend : s.silencePending = true
    · rw [if_pos hpend]
      by_cases hstop : s.hasAutoStopped = true
      · rw [if_pos hstop]
        exact ⟨h0, h1⟩
      · have hs : s.hasAutoStopped = false := by
          cases hcase : s.hasAutoStopped
          · rfl
          · exact absurd hcase hstop
        have hbase := h0 hs
        rw [if_neg hstop]
        constructor
        · intro hfalse
          rw [stopRecording_hasAutoStopped] at hfalse
          simp at hfalse
        · rw [autoFires, stopRecording_keywordFires, stopRecording_silenceFires]
          simp only [autoFires] at hbase
          simp
          omega
    · rw [if_neg hpend]
      exact ⟨h0, h1⟩

/-- Over any event sequence, a session that satisfies the latch invariant
fires at most one auto-stop in total. -/
theorem recRun_autoFires (base : Nat) :
    ∀ (es : List RecEvent) (s : Ctrl),
    (s.hasAutoStopped = false → autoFires s = base) →
    autoFires s ≤ base + 1 →
    autoFires (recRun s es) ≤ base + 1 := by
  intro es
  induction es with
  | nil => intro s _ h1; exact h1
  | cons e rest ih =>
    intro s h0 h1
    obtain ⟨h0', h1'⟩ := recStep_inv base s e h0 h1
    exact ih (recStep s e) h0' h1'

/-- C2: starting a new session resets the auto-stop latch; from then on at
most one auto-stop trigger (keyword or silence) fires over any sequence of
recognizer events and timer expires; and whenever the keyword trigger takes
the latch it also cancels any pending silence timer before stopping. -/
theorem C2_auto_stop_latch (s : Ctrl) (es : List RecEvent)
    (hrec : s.appState ≠ .recording) (hsec : s.secureOrigin = true) :
    (startRecording s).hasAutoStopped = false ∧
    autoFires (recRun (startRecording s) es) ≤ autoFires s + 1 ∧
    (∀ (u : Ctrl) (f i : String),
       u.noteMode < 0 → f ≠ "" → detectMenuItem f = true →
       u.hasAutoStopped = false →
       (onResult u f i).silencePending = false ∧
       (onResult u f i).hasAutoStopped = true) := by
  have hstart : startRecording s =
      { s with suggestions := [], errorMessage := "", liveTranscript := "",
               recordingTime := 0, hasAutoStopped := false, timerActive := true,
               recognitionActive := true, appState := .recording } := by
    unfold startRecording
    rw [if_neg hrec]
    dsimp only
    rw [if_neg (by simp [hsec])]
  refine ⟨by rw [hstart], ?_, ?_⟩
  · apply recRun_autoFires (autoFires s) es (startRecording s)
    · intro _
      rw [hstart]
      rfl
    · rw [hstart]
      show autoFires s ≤ autoFires s + 1
      omega
  · intro u f i hnm hf hd hu
    unfold onResult
    dsimp only
    rw [if_pos ⟨hnm, hf, hd, hu⟩]
    constructor
    · exact (stopRecording_frame _).2.2.2 rfl
    · rw [stopRecording_hasAutoStopped]

/-- Concrete run of `C2_auto_stop_latch`: a keyword-bearing final fragment
followed by a stale timer expiry and another keyword fragment fires exactly
one auto-stop from a fresh idle session. -/
theorem C2_auto_stop_latch_witness :
    (startRecording initCtrl).hasAutoStopped = false ∧
    autoFires (recRun (startRecording initCtrl)
      [.result "กะเพรา" "", .timer, .result "กะเพรา" ""]) ≤ autoFires initCtrl + 1 ∧
    (∀ (u : Ctrl) (f i : String),
       u.noteMode < 0 → f ≠ "" → detectMenuItem f = true →
       u.hasAutoStopped = false →
       (onResult u f i).silencePending = false ∧
       (onResult u f i).hasAutoStopped = true) :=
  C2_auto_stop_latch initCtrl [.result "กะเพรา" "", .timer, .result "กะเพรา" ""]
    (by decide) (by decide)

/-! ### C3: single-item transcripts -/

/-- C3: a transcript containing (as substrings) keywords of exactly one
active menu item — at least one of its keywords and no keyword of any other
item, active or inactive — is matched to that item with score the sum of
the character lengths of its matched keywords, each matched keyword counted
once however often it occurs. -/
theorem C3_single_item_match (menu : List MenuItem) (t : String) (it : MenuItem)
    (hmem : it ∈ menu) (hact : it.isActive = true)
    (hpos : 0 < itemScore t it)
    (hothers : ∀ o ∈ menu, o ≠ it → ∀ k ∈ o.keywords, strIncludes t k = false) :
    matchEngine menu t =
      .matched it ((it.keywords.map
        (fun k => if strIncludes t k then k.length else 0)).sum) := by
  have hsold : checkSoldOut menu t = none := by
    unfold checkSoldOut
    rw [List.find?_eq_none]
    intro x hx
    by_cases hxit : x = it
    · subst hxit
      simp [hact]
    · simp only [Bool.and_eq_true, Bool.not_eq_true', List.any_eq_true,
        not_and, not_exists]
      intro _ k hk
      rw [hothers x hx hxit k hk]
      simp
  have hbest : bestActive menu t = (some it, itemScore t it) := by
    unfold bestActive
    apply bestActive_fold_reach hpos
    · exact List.mem_filter.mpr ⟨hmem, by simp [hact]⟩
    · intro x hx
      have hxm := (List.mem_filter.mp hx).1
      by_cases hxit : x = it
      · exact Or.inl hxit
      · exact Or.inr (itemScore_eq_zero (hothers x hxm hxit))
  unfold matchEngine
  rw [hsold]
  dsimp only
  rw [hbest]
  rfl

/-- A menu with one inactive and one active item. -/
def c3Menu : List MenuItem :=
  [{ name := "ต้มยำกุ้ง", keywords := ["ต้มยำ"], basePrice := 90, isActive := false },
   { name := "กะเพราหมูสับ", keywords := ["กะเพรา", "กระเพรา"], basePrice := 50,
     isActive := true }]

/-- The active item of `c3Menu`. -/
def c3Item : MenuItem :=
  { name := "กะเพราหมูสับ", keywords := ["กะเพรา", "กระเพรา"], basePrice := 50,
    isActive := true }

/-- Concrete run of `C3_single_item_match`: the transcript
`"ขอกะเพราหมูสับหนึ่งที่"` contains only the keyword `"กะเพรา"` of the active
item, which is matched with score 6. -/
theorem C3_single_item_match_witness :
    matchEngine c3Menu "ขอกะเพราหมูสับหนึ่งที่" =
      .matched c3Item ((c3Item.keywords.map
        (fun k => if strIncludes "ขอกะเพราหมูสับหนึ่งที่" k then k.length else 0)).sum) :=
  C3_single_item_match c3Menu "ขอกะเพราหมูสับหนึ่งที่" c3Item (by decide) (by decide)
    (by decide) (by decide)

end EatEasy
